import Mathlib

/-!
Verification of `src/tools/create_report.py`.

The script builds a word-processing document from a text blob:
it sets the Normal style font to Arial at `Pt(11)`, then for each
segment of `report.strip().split('\n\n')` it appends one paragraph
containing one run with the trimmed segment text, saves the document
to a fixed output path, and prints one confirmation line.

Strings are embedded as `List Char`; the Python string operations
`str.strip` and `str.split('\n\n')` are translated from their
documented semantics (left-to-right non-overlapping separator scan,
`''.split(sep) = ['']`).
-/

/-- Characters removed by Python `str.strip()` with no argument
(the ASCII whitespace characters). -/
def isPyWhitespace (c : Char) : Bool :=
  c = ' ' || c = '\t' || c = '\n' || c = '\r' || c = '\x0B' || c = '\x0C'

/-- Python `s.strip()`: drop leading and trailing whitespace. -/
def pyStrip (s : List Char) : List Char :=
  ((s.dropWhile isPyWhitespace).reverse.dropWhile isPyWhitespace).reverse

/-- Python `s.split('\n\n')`: cut the string at each non-overlapping
occurrence of the two-character separator `'\n\n'`, scanning left to
right; empty segments are kept, and the empty string yields `[""]`. -/
def splitNN : List Char → List (List Char)
  | [] => [[]]
  | '\n' :: '\n' :: rest => [] :: splitNN rest
  | c :: rest =>
    match splitNN rest with
    | [] => [[c]]
    | seg :: segs => (c :: seg) :: segs

/-- A text run inside a paragraph.  `python-docx` runs carry optional
direct formatting; `add_run(text)` leaves it unset (inherited). -/
structure Run where
  text : List Char
  fontName : Option String
  fontSizeEmu : Option Nat
deriving DecidableEq

/-- A paragraph: an ordered sequence of runs. -/
structure Paragraph where
  runs : List Run
deriving DecidableEq

/-- Font settings of the document's Normal style
(`doc.styles['Normal'].font`). -/
structure FontSettings where
  name : Option String
  sizeEmu : Option Nat
deriving DecidableEq

/-- The in-memory document: Normal-style font settings and an ordered
sequence of paragraphs. -/
structure Document where
  normalFont : FontSettings
  paragraphs : List Paragraph
deriving DecidableEq

/-- `docx.shared.Pt`: points expressed in EMU (1 pt = 12700 EMU). -/
def Pt (points : Nat) : Nat := points * 12700

/-- `Document()`: a fresh document with no paragraphs and no explicit
Normal font settings. -/
def newDocument : Document :=
  { normalFont := { name := none, sizeEmu := none }, paragraphs := [] }

/-- `doc.styles['Normal'].font.name = n`. -/
def setNormalFontName (d : Document) (n : String) : Document :=
  { d with normalFont := { d.normalFont with name := some n } }

/-- `doc.styles['Normal'].font.size = sz`. -/
def setNormalFontSize (d : Document) (sz : Nat) : Document :=
  { d with normalFont := { d.normalFont with sizeEmu := some sz } }

/-- `doc.add_paragraph()`: append an empty paragraph and return its
index as the handle to the new paragraph object. -/
def add_paragraph (d : Document) : Document × Nat :=
  ({ d with paragraphs := d.paragraphs ++ [{ runs := [] }] },
   d.paragraphs.length)

/-- `p.add_run(t)` on the paragraph with index `idx`: append one run
with text `t` and no direct formatting. -/
def add_run (d : Document) (idx : Nat) (t : List Char) : Document :=
  { d with paragraphs :=
      match d.paragraphs[idx]? with
      | some p => d.paragraphs.set idx
          { p with runs := p.runs ++ [{ text := t, fontName := none, fontSizeEmu := none }] }
      | none => d.paragraphs }

/-- One iteration of the module-level loop:
`p = doc.add_paragraph(); p.add_run(para.strip())`. -/
def addReportParagraph (d : Document) (para : List Char) : Document :=
  let h := add_paragraph d
  add_run h.1 h.2 (pyStrip para)

/-- The document state after `Document()` and the two Normal-style
assignments, before any paragraph is added. -/
def styledDoc : Document :=
  setNormalFontSize (setNormalFontName newDocument "Arial") (Pt 11)

/-- The whole build: style the fresh document, then run the loop
`for para in report.strip().split('\n\n')` over the input text. -/
def buildDoc (text : List Char) : Document :=
  (splitNN (pyStrip text)).foldl addReportParagraph styledDoc

/-- `paragraph.text` in `python-docx`: concatenation of the runs'
texts. -/
def Paragraph.text (p : Paragraph) : List Char :=
  (p.runs.map Run.text).flatten

/-- Extracting the paragraph texts of a document in order. -/
def paragraphTexts (d : Document) : List (List Char) :=
  d.paragraphs.map Paragraph.text

/-- The paragraph produced by one loop iteration for a segment whose
trimmed text is `t`: exactly one run, no direct formatting. -/
def oneRunParagraph (t : List Char) : Paragraph :=
  { runs := [{ text := t, fontName := none, fontSizeEmu := none }] }

/-- Effective font name of a run: direct formatting if set, otherwise
inherited from the Normal style. -/
def effectiveFontName (d : Document) (r : Run) : Option String :=
  match r.fontName with
  | some n => some n
  | none => d.normalFont.name

/-- Effective font size of a run: direct formatting if set, otherwise
inherited from the Normal style. -/
def effectiveFontSize (d : Document) (r : Run) : Option Nat :=
  match r.fontSizeEmu with
  | some s => some s
  | none => d.normalFont.sizeEmu

/-- The non-empty segments of the blank-line split, as the spec words
them ("segments that are empty after trimming are skipped").  This
definition follows the SPEC's wording, to be compared with what the
code does; the code itself never filters. -/
def specNonEmptySegments (text : List Char) : List (List Char) :=
  (splitNN (pyStrip text)).filter (fun s => pyStrip s ≠ [])

/-- The error raised when the document cannot be persisted. -/
inductive SaveError where
  | ioError
deriving DecidableEq

/-- A minimal filesystem: the set of existing writable directories and
the files present, each holding a saved document. -/
structure FileSystem where
  writableDirs : List (List Char)
  files : List (List Char × Document)
deriving DecidableEq

/-- Parent directory of a path: everything before the last path
separator (`\` or `/`). -/
def parentDir (p : List Char) : List Char :=
  (((p.reverse).dropWhile (fun c => !(c = '\\' || c = '/'))).drop 1).reverse

/-- Write a file at `path`, replacing any existing file there. -/
def upsertFile (path : List Char) (doc : Document) :
    List (List Char × Document) → List (List Char × Document)
  | [] => [(path, doc)]
  | (q, d) :: rest =>
    if q = path then (path, doc) :: rest else (q, d) :: upsertFile path doc rest

/-- Look up the file stored at `path`. -/
def lookupFile (path : List Char) :
    List (List Char × Document) → Option Document
  | [] => none
  | (q, d) :: rest => if q = path then some d else lookupFile path rest

/-- The file at `path` in the filesystem, if any. -/
def getFile (fs : FileSystem) (path : List Char) : Option Document :=
  lookupFile path fs.files

/-- Modelled from the spec: `doc.save(output_path)` is not repository
code; per the spec it persists the document at the path, overwriting
silently, and fails with an `IOError`, creating no file, when the
path's parent directory does not exist or is not writable. -/
def save (fs : FileSystem) (doc : Document) (path : List Char) :
    Except SaveError FileSystem :=
  if fs.writableDirs.contains (parentDir path) then
    Except.ok { fs with files := upsertFile path doc fs.files }
  else
    Except.error SaveError.ioError

/-- The hardcoded output path of the script. -/
def output_path : List Char :=
  "d:\\automation Assignment\\B9IS121_Report.docx".toList

/-- Result of one process run: final filesystem, stdout lines, stderr
lines, and the exit status. -/
structure RunResult where
  fs : FileSystem
  stdoutLines : List (List Char)
  stderrLines : List (List Char)
  exitCode : Nat
deriving DecidableEq

/-- One run of the script on filesystem `fs` with input text `text`:
build the document, save it, and on success print the confirmation
line `Report written to: {output_path}`.  The failure branch is
modelled from the spec: the script has no handler, so a save failure
terminates the process with a non-zero status and an error message,
leaving the filesystem unchanged. -/
def runProgram (text : List Char) (fs : FileSystem) : RunResult :=
  let doc := buildDoc text
  match save fs doc output_path with
  | Except.ok fs1 =>
      { fs := fs1
        stdoutLines := ["Report written to: ".toList ++ output_path]
        stderrLines := []
        exitCode := 0 }
  | Except.error _ =>
      { fs := fs
        stdoutLines := []
        stderrLines := ["IOError: cannot write output file".toList]
        exitCode := 1 }

theorem getElem_opt_concat_len (l : List α) (a : α) :
    (l ++ [a])[l.length]? = some a := by
  induction l with
  | nil => rfl
  | cons x xs ih => simp [ih]

theorem set_concat_len (l : List α) (a b : α) :
    (l ++ [a]).set l.length b = l ++ [b] := by
  induction l with
  | nil => rfl
  | cons x xs ih => simp [List.set, ih]

theorem addReportParagraph_paragraphs (d : Document) (para : List Char) :
    (addReportParagraph d para).paragraphs
      = d.paragraphs ++ [oneRunParagraph (pyStrip para)] := by
  simp [addReportParagraph, add_paragraph, add_run, oneRunParagraph,
    getElem_opt_concat_len, set_concat_len]

theorem addReportParagraph_normalFont (d : Document) (para : List Char) :
    (addReportParagraph d para).normalFont = d.normalFont := by
  simp only [addReportParagraph, add_paragraph, add_run]

theorem foldl_addReportParagraph_paragraphs (segs : List (List Char)) (d : Document) :
    (segs.foldl addReportParagraph d).paragraphs
      = d.paragraphs ++ segs.map (fun s => oneRunParagraph (pyStrip s)) := by
  induction segs generalizing d with
  | nil => simp
  | cons s rest ih =>
      simp [List.foldl, ih, addReportParagraph_paragraphs, List.append_assoc]

theorem foldl_addReportParagraph_normalFont (segs : List (List Char)) (d : Document) :
    (segs.foldl addReportParagraph d).normalFont = d.normalFont := by
  induction segs generalizing d with
  | nil => rfl
  | cons s rest ih => simp [List.foldl, ih, addReportParagraph_normalFont]

theorem buildDoc_paragraphs (t : List Char) :
    (buildDoc t).paragraphs
      = (splitNN (pyStrip t)).map (fun s => oneRunParagraph (pyStrip s)) := by
  simp [buildDoc, foldl_addReportParagraph_paragraphs, styledDoc,
    setNormalFontName, setNormalFontSize, newDocument]

theorem buildDoc_normalFont (t : List Char) :
    (buildDoc t).normalFont = { name := some "Arial", sizeEmu := some (Pt 11) } := by
  simp [buildDoc, foldl_addReportParagraph_normalFont, styledDoc,
    setNormalFontName, setNormalFontSize, newDocument]

theorem text_oneRunParagraph (s : List Char) :
    Paragraph.text (oneRunParagraph s) = s := by
  simp [Paragraph.text, oneRunParagraph]

theorem paragraphTexts_buildDoc (t : List Char) :
    paragraphTexts (buildDoc t) = (splitNN (pyStrip t)).map pyStrip := by
  simp [paragraphTexts, buildDoc_paragraphs, text_oneRunParagraph]

theorem splitNN_ne_nil (s : List Char) : splitNN s ≠ [] := by
  unfold splitNN
  split
  · simp
  · simp
  · split <;> simp

theorem lookupFile_upsertFile (path : List Char) (doc : Document)
    (files : List (List Char × Document)) :
    lookupFile path (upsertFile path doc files) = some doc := by
  induction files with
  | nil => simp [upsertFile, lookupFile]
  | cons f rest ih =>
      obtain ⟨q, d⟩ := f
      by_cases h : q = path <;> simp [upsertFile, lookupFile, h, ih]

/-- A filesystem in which the output path's parent directory exists
and is writable, used to instantiate the run-level theorems. -/
def fsWritable : FileSystem :=
  { writableDirs := ["d:\\automation Assignment".toList], files := [] }

/-- Claim C1 counterexample: for the input `"A\n\n\n\nB"` there are
2 non-empty blank-line-separated segments, but the produced document
does not have 2 paragraphs and its paragraph texts are not the
non-empty segment sequence: the empty middle segment also yields a
paragraph. -/
theorem C1_counterexample :
    (specNonEmptySegments "A\n\n\n\nB".toList).length = 2 ∧
    (buildDoc "A\n\n\n\nB".toList).paragraphs.length ≠ 2 ∧
    paragraphTexts (buildDoc "A\n\n\n\nB".toList) ≠ ["A".toList, "B".toList] := by
  decide

/-- Claim C1 (amended): for every input text, the produced document
contains exactly one paragraph per segment of the blank-line split of
the stripped text, empty segments included, the i-th paragraph's text
equal to the i-th trimmed segment; extracting the paragraph texts in
order yields the trimmed segment sequence verbatim. -/
theorem C1_paragraphs_follow_segments (t : List Char) :
    (buildDoc t).paragraphs.length = (splitNN (pyStrip t)).length ∧
    paragraphTexts (buildDoc t) = (splitNN (pyStrip t)).map pyStrip := by
  constructor
  · simp [buildDoc_paragraphs]
  · exact paragraphTexts_buildDoc t

/-- Claim C2 counterexample: for the input `"X\n\n\n\nY\n\n\n\nZ"`
there are 3 non-empty segments but the document does not have 3
paragraph elements (it has 5). -/
theorem C2_counterexample :
    (specNonEmptySegments "X\n\n\n\nY\n\n\n\nZ".toList).length = 3 ∧
    (buildDoc "X\n\n\n\nY\n\n\n\nZ".toList).paragraphs.length ≠ 3 ∧
    (buildDoc "X\n\n\n\nY\n\n\n\nZ".toList).paragraphs.length = 5 := by
  decide

/-- Claim C2 (amended): after the build completes, the number of
paragraph elements equals the number of segments (empty ones
included) produced by splitting the stripped source text on blank
lines. -/
theorem C2_paragraph_count_invariant (t : List Char) :
    (buildDoc t).paragraphs.length = (splitNN (pyStrip t)).length := by
  simp [buildDoc_paragraphs]

/-- Claim C3 counterexample: on the input `"\n\nA\n\n\n\nB\n\n"` the
builder does not produce 2 paragraphs with texts `"A"`, `"B"`: empty
segments are not skipped. -/
theorem C3_counterexample :
    (buildDoc "\n\nA\n\n\n\nB\n\n".toList).paragraphs.length ≠ 2 ∧
    paragraphTexts (buildDoc "\n\nA\n\n\n\nB\n\n".toList)
      ≠ ["A".toList, "B".toList] := by
  decide

/-- Claim C3 (amended): on the input `"\n\nA\n\n\n\nB\n\n"` the
builder produces exactly 3 paragraphs, with texts `"A"`, `""`, `"B"`:
the extra blank lines yield an empty middle segment, which produces
an empty paragraph instead of being skipped. -/
theorem C3_whitespace_scenario :
    (buildDoc "\n\nA\n\n\n\nB\n\n".toList).paragraphs.length = 3 ∧
    paragraphTexts (buildDoc "\n\nA\n\n\n\nB\n\n".toList)
      = ["A".toList, [], "B".toList] := by
  decide

/-- Claim C4: on the input `"A\n\nB\n\nC"` the builder produces a
document with exactly 3 paragraphs whose texts are `"A"`, `"B"`,
`"C"` in that order. -/
theorem C4_three_paragraph_scenario :
    (buildDoc "A\n\nB\n\nC".toList).paragraphs.length = 3 ∧
    paragraphTexts (buildDoc "A\n\nB\n\nC".toList)
      = ["A".toList, "B".toList, "C".toList] := by
  decide

/-- Claim C5: the Normal style's font is set to Arial at 11 pt before
any paragraph content is added (the styled document still has no
paragraphs), the final document keeps those Normal-style settings,
and every run of every paragraph has effective font Arial and 11 pt,
since runs carry no direct formatting and inherit from Normal. -/
theorem C5_default_style (t : List Char) :
    styledDoc.paragraphs = [] ∧
    styledDoc.normalFont = { name := some "Arial", sizeEmu := some (Pt 11) } ∧
    (buildDoc t).normalFont = { name := some "Arial", sizeEmu := some (Pt 11) } ∧
    ((buildDoc t).paragraphs.all fun p => p.runs.all fun r =>
      effectiveFontName (buildDoc t) r == some "Arial" &&
      effectiveFontSize (buildDoc t) r == some (Pt 11)) = true := by
  refine ⟨rfl, rfl, buildDoc_normalFont t, ?_⟩
  rw [buildDoc_paragraphs]
  simp [List.all_eq_true, oneRunParagraph, effectiveFontName, effectiveFontSize,
    buildDoc_normalFont]

/-- Claim C6: every paragraph appended to the document contains
exactly one run, and that run's text is the trimmed segment text. -/
theorem C6_one_run_per_paragraph (t : List Char) :
    (buildDoc t).paragraphs
      = (splitNN (pyStrip t)).map (fun s => oneRunParagraph (pyStrip s)) ∧
    ((buildDoc t).paragraphs.all fun p => p.runs.length == 1) = true := by
  refine ⟨buildDoc_paragraphs t, ?_⟩
  rw [buildDoc_paragraphs]
  simp [oneRunParagraph]

/-- Claim C7: when the output path's parent directory is not among
the writable directories and no file exists at the output path, the
run fails with a non-zero exit status and an error message, and no
file is created at the output path. -/
theorem C7_unwritable_dir (t : List Char) (fs : FileSystem)
    (hdir : parentDir output_path ∉ fs.writableDirs)
    (hfile : getFile fs output_path = none) :
    (runProgram t fs).exitCode ≠ 0 ∧
    (runProgram t fs).stderrLines ≠ [] ∧
    getFile (runProgram t fs).fs output_path = none := by
  simp [runProgram, save, hdir, hfile]

/-- Claim C7 witness: the unwritable-directory theorem instantiated
on the empty filesystem. -/
theorem C7_unwritable_dir_witness :
    (runProgram "A".toList { writableDirs := [], files := [] }).exitCode ≠ 0 ∧
    (runProgram "A".toList { writableDirs := [], files := [] }).stderrLines ≠ [] ∧
    getFile (runProgram "A".toList { writableDirs := [], files := [] }).fs
      output_path = none :=
  C7_unwritable_dir "A".toList { writableDirs := [], files := [] }
    (by decide) (by decide)

/-- Claim C8: running the program twice with the same input text and
output path stores documents with identical paragraph content: the
paragraph content is a deterministic function of the input text. -/
theorem C8_deterministic_rebuild (t : List Char) (fs : FileSystem)
    (hdir : parentDir output_path ∈ fs.writableDirs) :
    ∃ d1 d2,
      getFile (runProgram t fs).fs output_path = some d1 ∧
      getFile (runProgram t (runProgram t fs).fs).fs output_path = some d2 ∧
      d1.paragraphs = d2.paragraphs ∧ paragraphTexts d1 = paragraphTexts d2 := by
  refine ⟨buildDoc t, buildDoc t, ?_, ?_, rfl, rfl⟩
  · simp [runProgram, save, hdir, getFile, lookupFile_upsertFile]
  · simp [runProgram, save, hdir, getFile, lookupFile_upsertFile]

/-- Claim C8 witness: the determinism theorem instantiated on a
writable filesystem and the text `"A\n\nB"`. -/
theorem C8_deterministic_rebuild_witness :
    ∃ d1 d2,
      getFile (runProgram "A\n\nB".toList fsWritable).fs output_path = some d1 ∧
      getFile (runProgram "A\n\nB".toList
        (runProgram "A\n\nB".toList fsWritable).fs).fs output_path = some d2 ∧
      d1.paragraphs = d2.paragraphs ∧ paragraphTexts d1 = paragraphTexts d2 :=
  C8_deterministic_rebuild "A\n\nB".toList fsWritable (by decide)

/-- Claim C9: upon successful completion the program prints exactly
one confirmation line to standard output, and that line contains the
output path. -/
theorem C9_confirmation_line (t : List Char) (fs : FileSystem)
    (hdir : parentDir output_path ∈ fs.writableDirs) :
    (runProgram t fs).exitCode = 0 ∧
    (runProgram t fs).stdoutLines.length = 1 ∧
    ∃ pre post, (runProgram t fs).stdoutLines = [pre ++ output_path ++ post] := by
  refine ⟨?_, ?_, "Report written to: ".toList, [], ?_⟩ <;>
    simp [runProgram, save, hdir]

/-- Claim C9 witness: the confirmation-line theorem instantiated on a
writable filesystem. -/
theorem C9_confirmation_line_witness :
    (runProgram "A".toList fsWritable).exitCode = 0 ∧
    (runProgram "A".toList fsWritable).stdoutLines.length = 1 ∧
    ∃ pre post,
      (runProgram "A".toList fsWritable).stdoutLines
        = [pre ++ output_path ++ post] :=
  C9_confirmation_line "A".toList fsWritable (by decide)

/-- Claim C10: the builder appends exactly one paragraph per segment
of the split, skipping none, and the split always has at least one
segment, so the document always has at least one paragraph; a line of
spaces is not a boundary (`"A\n \nB"` gives one paragraph), the empty
input gives one empty paragraph, and a segment trimming to the empty
string still produces an (empty) paragraph. -/
theorem C10_no_skipping (t : List Char) :
    (buildDoc t).paragraphs.length = (splitNN (pyStrip t)).length ∧
    paragraphTexts (buildDoc t) = (splitNN (pyStrip t)).map pyStrip ∧
    1 ≤ (buildDoc t).paragraphs.length ∧
    paragraphTexts (buildDoc "A\n \nB".toList) = ["A\n \nB".toList] ∧
    paragraphTexts (buildDoc "".toList) = [[]] ∧
    paragraphTexts (buildDoc "A\n\n \n\nB".toList)
      = ["A".toList, [], "B".toList] := by
  refine ⟨?_, paragraphTexts_buildDoc t, ?_, by decide, by decide, by decide⟩
  · simp [buildDoc_paragraphs]
  · rw [buildDoc_paragraphs, List.length_map]
    exact List.length_pos.mpr (splitNN_ne_nil (pyStrip t))
